import Mathlib

/-!
Shallow embedding of the Wherehous-connect backend (src/server.js) and proofs
about its stock-accounting model.

Modelling conventions:
* SQL REAL / JavaScript numbers are modelled as rationals (ℚ); INTEGER ids as ℕ.
* A JSON body field that may be absent is an `Option`; JavaScript truthiness
  tests (`!x`, `x || 0`, `if (x)`) are made explicit through the `truthy…`
  helpers (the only falsy number is 0, the only falsy string is "").
* Nullable SQL columns are `Option` fields; the stored `isCommentRead` column
  is read back through `!!` by every route, so NULL and 0 are observationally
  identical and the column is modelled as `Bool`.
* Each Express handler becomes a pure function from the current table contents
  and the request to an `Except`/result value; HTTP status codes are the
  constructors of the error types.
* The `date` column (server clock) plays no role in any claim and is omitted.
-/

namespace Warehouse

/-- A stored row of the `stockMovements` table (src/server.js, CREATE TABLE
stockMovements). -/
structure StockMovement where
  id : Nat
  clientId : Nat
  type : String
  product : String
  totalWeight : ℚ
  plasticBoxCount : Option ℚ
  plasticBoxWeight : Option ℚ
  woodBoxCount : Option ℚ
  woodBoxWeight : Option ℚ
  productWeight : ℚ
  recordedByUserId : Nat
  comment : Option String
  farmerComment : Option String
  isCommentRead : Bool
  deriving DecidableEq, Repr

/-- The accumulator built by `getClientStockSummary` (src/server.js line 106). -/
structure StockSummary where
  totalWeight : ℚ
  productWeight : ℚ
  plasticBoxes : ℚ
  woodBoxes : ℚ
  deriving DecidableEq, Repr

/-- JavaScript truthiness of a possibly-absent number: `undefined` and `0` are
falsy, every other rational is truthy. -/
def truthyQ (o : Option ℚ) : Bool := decide (o.getD 0 ≠ 0)

/-- JavaScript truthiness of a possibly-absent nonnegative integer (ids). -/
def truthyNat (o : Option Nat) : Bool := decide (o.getD 0 ≠ 0)

/-- JavaScript truthiness of a possibly-absent string: `undefined` and `""` are
falsy. -/
def truthyStr (o : Option String) : Bool := decide (o.getD "" ≠ "")

/-- JavaScript `x || 0` on a possibly-absent number: every falsy value (absent
or 0) becomes 0, so this is exactly `getD 0`. -/
def orZero (o : Option ℚ) : ℚ := o.getD 0

/-- The sign applied to a movement row: `movement.type === 'in' ? 1 : -1`
(src/server.js lines 108 and 128). Note that every type other than `"in"`,
not only `"out"`, gets sign -1. -/
def multiplier (t : String) : ℚ := if t = "in" then 1 else -1

/-- One step of the fold in `getClientStockSummary` (src/server.js lines
107-117): add the signed totalWeight and productWeight, and add the signed box
counts only when the stored count is truthy (non-NULL and nonzero). -/
def summaryStep (s : StockSummary) (m : StockMovement) : StockSummary :=
  let s1 : StockSummary :=
    { s with totalWeight := s.totalWeight + m.totalWeight * multiplier m.type,
             productWeight := s.productWeight + m.productWeight * multiplier m.type }
  let s2 : StockSummary :=
    if truthyQ m.plasticBoxCount then
      { s1 with plasticBoxes := s1.plasticBoxes + (m.plasticBoxCount.getD 0) * multiplier m.type }
    else s1
  if truthyQ m.woodBoxCount then
    { s2 with woodBoxes := s2.woodBoxes + (m.woodBoxCount.getD 0) * multiplier m.type }
  else s2

/-- `getClientStockSummary` (src/server.js lines 102-121): fold over the rows
of the client (`SELECT * FROM stockMovements WHERE clientId = ?`). -/
def getClientStockSummary (ledger : List StockMovement) (cid : Nat) : StockSummary :=
  (ledger.filter (fun m => m.clientId == cid)).foldl summaryStep
    { totalWeight := 0, productWeight := 0, plasticBoxes := 0, woodBoxes := 0 }

/-- One step of the reduce in `getProductStockForClient` (src/server.js lines
127-130). -/
def productStep (acc : ℚ) (m : StockMovement) : ℚ :=
  acc + m.productWeight * multiplier m.type

/-- `getProductStockForClient` (src/server.js lines 123-134): signed sum of
productWeight over the rows matching the client and the product name exactly
(`WHERE clientId = ? AND product = ?`). -/
def getProductStockForClient (ledger : List StockMovement) (cid : Nat) (product : String) : ℚ :=
  (ledger.filter (fun m => m.clientId == cid && m.product == product)).foldl productStep 0

/-- The JSON body of a POST /api/movements request (src/server.js line 277);
every field may be absent. -/
structure MovementRequest where
  clientId : Option Nat
  type : Option String
  product : Option String
  totalWeight : Option ℚ
  plasticBoxCount : Option ℚ
  plasticBoxWeight : Option ℚ
  woodBoxCount : Option ℚ
  woodBoxWeight : Option ℚ
  recordedByUserId : Option Nat
  comment : Option String
  deriving DecidableEq, Repr

/-- The required-field test of POST /api/movements (src/server.js line 279):
`!clientId || !type || !product || !totalWeight || !recordedByUserId` rejects;
acceptance is the conjunction of the truthiness of the five fields. -/
def movementFieldsPresent (r : MovementRequest) : Bool :=
  truthyNat r.clientId && truthyStr r.type && truthyStr r.product &&
    truthyQ r.totalWeight && truthyNat r.recordedByUserId

/-- The derived net product weight (src/server.js lines 283-287):
`totalWeight - pBoxCount*pBoxWeight - wBoxCount*wBoxWeight` with each box field
defaulted through `|| 0`. -/
def derivedProductWeight (r : MovementRequest) : ℚ :=
  orZero r.totalWeight - orZero r.plasticBoxCount * orZero r.plasticBoxWeight -
    orZero r.woodBoxCount * orZero r.woodBoxWeight

/-- The 400-level rejections of POST /api/movements; the insufficiency
constructors carry the available and the requested amount that the response
message interpolates (src/server.js lines 280, 290, 297, 301, 304). -/
inductive MovementError where
  | missingFields
  | negativeProductWeight
  | insufficientProduct (available requested : ℚ)
  | insufficientPlastic (available requested : ℚ)
  | insufficientWood (available requested : ℚ)
  deriving DecidableEq, Repr

/-- JavaScript `comment?.trim() ? comment.trim() : null` (src/server.js
line 317). -/
def storedComment (o : Option String) : Option String :=
  match o with
  | some s => if s.trim ≠ "" then some s.trim else none
  | none => none

/-- The row inserted by POST /api/movements when validation passes
(src/server.js lines 311-318): box counts and unit weights are stored as NULL
unless the count is strictly positive; farmerComment starts NULL and
isCommentRead starts NULL (read back as false through `!!`). -/
def insertedMovement (newId : Nat) (r : MovementRequest) : StockMovement :=
  { id := newId
    clientId := r.clientId.getD 0
    type := r.type.getD ""
    product := r.product.getD ""
    totalWeight := r.totalWeight.getD 0
    plasticBoxCount := if 0 < orZero r.plasticBoxCount then some (orZero r.plasticBoxCount) else none
    plasticBoxWeight := if 0 < orZero r.plasticBoxCount then some (orZero r.plasticBoxWeight) else none
    woodBoxCount := if 0 < orZero r.woodBoxCount then some (orZero r.woodBoxCount) else none
    woodBoxWeight := if 0 < orZero r.woodBoxCount then some (orZero r.woodBoxWeight) else none
    productWeight := derivedProductWeight r
    recordedByUserId := r.recordedByUserId.getD 0
    comment := storedComment r.comment
    farmerComment := none
    isCommentRead := false }

/-- The POST /api/movements handler (src/server.js lines 276-328): required
fields, zero-floor check on the derived weight, and, only for type `'out'`,
the three availability checks in order (product stock, plastic boxes, wood
boxes); on success the row that the INSERT stores. -/
def postMovement (ledger : List StockMovement) (newId : Nat) (r : MovementRequest) :
    Except MovementError StockMovement :=
  if movementFieldsPresent r = true then
    if derivedProductWeight r < 0 then Except.error MovementError.negativeProductWeight
    else if r.type.getD "" = "out" then
      if getProductStockForClient ledger (r.clientId.getD 0) (r.product.getD "") <
          derivedProductWeight r then
        Except.error (MovementError.insufficientProduct
          (getProductStockForClient ledger (r.clientId.getD 0) (r.product.getD ""))
          (derivedProductWeight r))
      else if (getClientStockSummary ledger (r.clientId.getD 0)).plasticBoxes <
          orZero r.plasticBoxCount then
        Except.error (MovementError.insufficientPlastic
          ((getClientStockSummary ledger (r.clientId.getD 0)).plasticBoxes)
          (orZero r.plasticBoxCount))
      else if (getClientStockSummary ledger (r.clientId.getD 0)).woodBoxes <
          orZero r.woodBoxCount then
        Except.error (MovementError.insufficientWood
          ((getClientStockSummary ledger (r.clientId.getD 0)).woodBoxes)
          (orZero r.woodBoxCount))
      else Except.ok (insertedMovement newId r)
    else Except.ok (insertedMovement newId r)
  else Except.error MovementError.missingFields

/-- Ledger states reachable from the empty table through accepted
POST /api/movements requests only (this formalises "sequence of movement
creations accepted by the API"). -/
inductive Reaches : List StockMovement → Prop where
  | nil : Reaches []
  | step {l : List StockMovement} {i : Nat} {r : MovementRequest} {m : StockMovement} :
      Reaches l → postMovement l i r = Except.ok m → Reaches (l ++ [m])

/-- Ledger states reachable from the empty table through accepted
POST /api/movements requests whose type field is the string 'in' or 'out'. -/
inductive ReachesInOut : List StockMovement → Prop where
  | nil : ReachesInOut []
  | step {l : List StockMovement} {i : Nat} {r : MovementRequest} {m : StockMovement} :
      ReachesInOut l → (r.type = some "in" ∨ r.type = some "out") →
      postMovement l i r = Except.ok m → ReachesInOut (l ++ [m])

/-! Specification-side signed contributions of a single row, used to state the
balance claims as mathematical sums. -/

/-- Signed totalWeight contribution of one row. -/
def twContrib (m : StockMovement) : ℚ := m.totalWeight * multiplier m.type

/-- Signed productWeight contribution of one row. -/
def pwContrib (m : StockMovement) : ℚ := m.productWeight * multiplier m.type

/-- Signed plastic-box contribution of one row; a missing count contributes 0. -/
def pbContrib (m : StockMovement) : ℚ := (m.plasticBoxCount.getD 0) * multiplier m.type

/-- Signed wood-box contribution of one row; a missing count contributes 0. -/
def wbContrib (m : StockMovement) : ℚ := (m.woodBoxCount.getD 0) * multiplier m.type

/-- A concrete deposit row used to instantiate universally quantified results. -/
def mvA : StockMovement :=
  { id := 1, clientId := 1, type := "in", product := "pomme", totalWeight := 100,
    plasticBoxCount := some 2, plasticBoxWeight := some 5,
    woodBoxCount := none, woodBoxWeight := none, productWeight := 90,
    recordedByUserId := 1, comment := none, farmerComment := none, isCommentRead := false }

/-- A concrete withdrawal row used to instantiate universally quantified
results. -/
def mvB : StockMovement :=
  { id := 2, clientId := 1, type := "out", product := "pomme", totalWeight := 40,
    plasticBoxCount := some 1, plasticBoxWeight := some 5,
    woodBoxCount := none, woodBoxWeight := none, productWeight := 35,
    recordedByUserId := 1, comment := none, farmerComment := none, isCommentRead := false }

/-- A concrete deposit request: totalWeight 100 with 2 plastic boxes of unit
weight 5, so the derived productWeight is 90. -/
def inRequest : MovementRequest :=
  { clientId := some 1, type := some "in", product := some "pomme",
    totalWeight := some 100, plasticBoxCount := some 2, plasticBoxWeight := some 5,
    woodBoxCount := none, woodBoxWeight := none, recordedByUserId := some 1,
    comment := none }

/-- The row stored for `inRequest`. -/
def inRow : StockMovement := insertedMovement 1 inRequest

/-- A concrete withdrawal request whose derived productWeight (90) equals the
stock available after `inRequest`. -/
def outRequestEq : MovementRequest :=
  { clientId := some 1, type := some "out", product := some "pomme",
    totalWeight := some 90, plasticBoxCount := none, plasticBoxWeight := none,
    woodBoxCount := none, woodBoxWeight := none, recordedByUserId := some 1,
    comment := none }

/-- A concrete request whose derived productWeight is negative:
5 - 2*5 = -5. -/
def negRequest : MovementRequest :=
  { clientId := some 1, type := some "in", product := some "pomme",
    totalWeight := some 5, plasticBoxCount := some 2, plasticBoxWeight := some 5,
    woodBoxCount := none, woodBoxWeight := none, recordedByUserId := some 1,
    comment := none }

/-- A concrete request with totalWeight 0, otherwise complete. -/
def zeroWeightRequest : MovementRequest :=
  { clientId := some 1, type := some "in", product := some "pomme",
    totalWeight := some 0, plasticBoxCount := none, plasticBoxWeight := none,
    woodBoxCount := none, woodBoxWeight := none, recordedByUserId := some 1,
    comment := none }

/-- A concrete request whose type is neither 'in' nor 'out': the handler treats
any truthy type string as valid, skips the 'out' validations, and stores the
row; the balance calculators then count it with sign -1. -/
def sortieRequest : MovementRequest :=
  { clientId := some 1, type := some "sortie", product := some "pomme",
    totalWeight := some 10, plasticBoxCount := none, plasticBoxWeight := none,
    woodBoxCount := none, woodBoxWeight := none, recordedByUserId := some 1,
    comment := none }

/-- The row stored for `sortieRequest`. -/
def sortieRow : StockMovement := insertedMovement 1 sortieRequest

/-- The JSON body of a PATCH /api/movements/:id request (src/server.js line
332): `some s` models a field present with a string value (the handler tests
`typeof farmerComment === 'string'`) and `some v` a field present with a
boolean value (`typeof isCommentRead === 'boolean'`). -/
structure MovementPatchBody where
  farmerComment : Option String
  isCommentRead : Option Bool
  deriving DecidableEq, Repr

/-- The SET assignments of the PATCH handler applied to one row (src/server.js
lines 334-345): a string farmerComment writes farmerComment and writes
isCommentRead = false; a boolean isCommentRead then writes isCommentRead.
Applying the assignments left to right realizes SQLite's rule that of
duplicate assignments to the same column only the rightmost takes effect. -/
def applyMovementPatch (b : MovementPatchBody) (m : StockMovement) : StockMovement :=
  let m1 : StockMovement :=
    match b.farmerComment with
    | some s => { m with farmerComment := some s, isCommentRead := false }
    | none => m
  match b.isCommentRead with
  | some v => { m1 with isCommentRead := v }
  | none => m1

/-- PATCH /api/movements/:id rejections: 400 when the body carries no
recognised field, 404 when no row matches the id. -/
inductive PatchError where
  | noFields
  | notFound
  deriving DecidableEq, Repr

/-- The PATCH /api/movements/:id handler (src/server.js lines 330-362): 400
when the body has neither a string farmerComment nor a boolean isCommentRead;
otherwise the UPDATE rewrites every row whose id matches and a 404 is returned
when no row changed. -/
def patchMovement (ledger : List StockMovement) (mid : Nat) (b : MovementPatchBody) :
    Except PatchError (List StockMovement) :=
  if b.farmerComment = none ∧ b.isCommentRead = none then Except.error PatchError.noFields
  else if ledger.any (fun m => m.id == mid) then
    Except.ok (ledger.map (fun m => if m.id == mid then applyMovementPatch b m else m))
  else Except.error PatchError.notFound

/-- A stored row of the `users` table (src/server.js CREATE TABLE users);
password holds the bcrypt hash. -/
structure User where
  id : Nat
  username : String
  name : String
  role : String
  status : String
  password : String
  clientId : Option Nat
  deriving DecidableEq, Repr

/-- The JSON body of a PUT /api/users/:id request (src/server.js line 216). -/
structure UserPutBody where
  name : Option String
  username : Option String
  role : Option String
  clientId : Option Nat
  password : Option String
  status : Option String
  deriving DecidableEq, Repr

/-- The SET list of PUT /api/users/:id applied to one row (src/server.js lines
218-231): name, username, role and status are written only when truthy; the
clientId assignment is always pushed, carrying the body's clientId exactly
when the body's role value is 'Agriculteur' and NULL otherwise; a truthy
password is written as its bcrypt hash (the hash function is a parameter of
the model). -/
def applyUserPut (hash : String → String) (b : UserPutBody) (u : User) : User :=
  let u1 : User := if truthyStr b.name then { u with name := b.name.getD "" } else u
  let u2 : User := if truthyStr b.username then { u1 with username := b.username.getD "" } else u1
  let u3 : User := if truthyStr b.role then { u2 with role := b.role.getD "" } else u2
  let u4 : User := if truthyStr b.status then { u3 with status := b.status.getD "" } else u3
  let u5 : User := { u4 with clientId := if b.role = some "Agriculteur" then b.clientId else none }
  if truthyStr b.password then { u5 with password := hash (b.password.getD "") } else u5

/-- PUT /api/users/:id rejection: 404 when no row matches (the handler's
'No fields to update' branch is unreachable because the clientId assignment is
always pushed). -/
inductive PutError where
  | notFound
  deriving DecidableEq, Repr

/-- The PUT /api/users/:id handler (src/server.js lines 214-248). -/
def putUser (hash : String → String) (users : List User) (uid : Nat) (b : UserPutBody) :
    Except PutError (List User) :=
  if users.any (fun u => u.id == uid) then
    Except.ok (users.map (fun u => if u.id == uid then applyUserPut hash b u else u))
  else Except.error PutError.notFound

/-- DELETE /api/users/:id outcomes: 404 not found, 403 target is Admin,
204 deleted. -/
inductive DeleteResult where
  | notFound
  | forbiddenAdmin
  | deleted
  deriving DecidableEq, Repr

/-- The DELETE /api/users/:id handler (src/server.js lines 250-263): look the
target up by id; 404 when absent, 403 when its role is 'Admin' (no caller is
consulted), otherwise delete the row and answer 204. -/
def deleteUser (users : List User) (uid : Nat) : DeleteResult × List User :=
  match users.find? (fun u => u.id == uid) with
  | none => (DeleteResult.notFound, users)
  | some u =>
      if u.role = "Admin" then (DeleteResult.forbiddenAdmin, users)
      else (DeleteResult.deleted, users.filter (fun x => ! (x.id == uid)))

/-- A PATCH body carrying both a farmerComment string and isCommentRead=true. -/
def bothPatchBody : MovementPatchBody :=
  { farmerComment := some "poids errone", isCommentRead := some true }

/-- The row `bothPatchBody` produces from `mvA`: the comment is stored but
isCommentRead ends up true. -/
def mvABothPatched : StockMovement :=
  { mvA with farmerComment := some "poids errone", isCommentRead := true }

/-- A concrete Farmer-role user linked to client 5. -/
def farmerUser : User :=
  { id := 3, username := "jean", name := "Jean", role := "Agriculteur",
    status := "Active", password := "hash0", clientId := some 5 }

/-- A concrete Admin user. -/
def adminUser : User :=
  { id := 1, username := "admin", name := "Alice Durand", role := "Admin",
    status := "Active", password := "hash1", clientId := none }

/-- A PUT body carrying only a name. -/
def renameOnlyBody : UserPutBody :=
  { name := some "Robert", username := none, role := none, clientId := none,
    password := none, status := none }

/-- A PUT body whose name is present but empty (falsy in JavaScript). -/
def emptyNameBody : UserPutBody :=
  { name := some "", username := none, role := none, clientId := none,
    password := none, status := none }

/-! Fold-to-sum lemmas for the two balance calculators. -/

theorem summaryStep_totalWeight (s : StockSummary) (m : StockMovement) :
    (summaryStep s m).totalWeight = s.totalWeight + twContrib m := by
  unfold summaryStep twContrib
  split <;> split <;> rfl

theorem summaryStep_productWeight (s : StockSummary) (m : StockMovement) :
    (summaryStep s m).productWeight = s.productWeight + pwContrib m := by
  unfold summaryStep pwContrib
  split <;> split <;> rfl

theorem summaryStep_plasticBoxes (s : StockSummary) (m : StockMovement) :
    (summaryStep s m).plasticBoxes = s.plasticBoxes + pbContrib m := by
  by_cases h : m.plasticBoxCount.getD 0 = 0 <;>
    simp [summaryStep, pbContrib, truthyQ, h] <;> split <;> simp [h]

theorem summaryStep_woodBoxes (s : StockSummary) (m : StockMovement) :
    (summaryStep s m).woodBoxes = s.woodBoxes + wbContrib m := by
  by_cases h : m.woodBoxCount.getD 0 = 0 <;>
    simp [summaryStep, wbContrib, truthyQ, h] <;> split <;> simp [h]

theorem foldl_summaryStep_totalWeight (l : List StockMovement) (s : StockSummary) :
    (l.foldl summaryStep s).totalWeight = s.totalWeight + (l.map twContrib).sum := by
  induction l generalizing s with
  | nil => simp
  | cons m t ih => simp [List.foldl_cons, ih, summaryStep_totalWeight, add_assoc]

theorem foldl_summaryStep_productWeight (l : List StockMovement) (s : StockSummary) :
    (l.foldl summaryStep s).productWeight = s.productWeight + (l.map pwContrib).sum := by
  induction l generalizing s with
  | nil => simp
  | cons m t ih => simp [List.foldl_cons, ih, summaryStep_productWeight, add_assoc]

theorem foldl_summaryStep_plasticBoxes (l : List StockMovement) (s : StockSummary) :
    (l.foldl summaryStep s).plasticBoxes = s.plasticBoxes + (l.map pbContrib).sum := by
  induction l generalizing s with
  | nil => simp
  | cons m t ih => simp [List.foldl_cons, ih, summaryStep_plasticBoxes, add_assoc]

theorem foldl_summaryStep_woodBoxes (l : List StockMovement) (s : StockSummary) :
    (l.foldl summaryStep s).woodBoxes = s.woodBoxes + (l.map wbContrib).sum := by
  induction l generalizing s with
  | nil => simp
  | cons m t ih => simp [List.foldl_cons, ih, summaryStep_woodBoxes, add_assoc]

theorem foldl_productStep (l : List StockMovement) (a : ℚ) :
    l.foldl productStep a = a + (l.map pwContrib).sum := by
  induction l generalizing a with
  | nil => simp
  | cons m t ih => simp [List.foldl_cons, productStep, pwContrib, ih, add_assoc]

theorem getClientStockSummary_totalWeight (ledger : List StockMovement) (cid : Nat) :
    (getClientStockSummary ledger cid).totalWeight
      = ((ledger.filter (fun m => m.clientId == cid)).map twContrib).sum := by
  simp [getClientStockSummary, foldl_summaryStep_totalWeight]

theorem getClientStockSummary_productWeight (ledger : List StockMovement) (cid : Nat) :
    (getClientStockSummary ledger cid).productWeight
      = ((ledger.filter (fun m => m.clientId == cid)).map pwContrib).sum := by
  simp [getClientStockSummary, foldl_summaryStep_productWeight]

theorem getClientStockSummary_plasticBoxes (ledger : List StockMovement) (cid : Nat) :
    (getClientStockSummary ledger cid).plasticBoxes
      = ((ledger.filter (fun m => m.clientId == cid)).map pbContrib).sum := by
  simp [getClientStockSummary, foldl_summaryStep_plasticBoxes]

theorem getClientStockSummary_woodBoxes (ledger : List StockMovement) (cid : Nat) :
    (getClientStockSummary ledger cid).woodBoxes
      = ((ledger.filter (fun m => m.clientId == cid)).map wbContrib).sum := by
  simp [getClientStockSummary, foldl_summaryStep_woodBoxes]

theorem getProductStockForClient_eq_sum (ledger : List StockMovement) (cid : Nat) (p : String) :
    getProductStockForClient ledger cid p
      = ((ledger.filter (fun m => m.clientId == cid && m.product == p)).map pwContrib).sum := by
  simp [getProductStockForClient, foldl_productStep]

/-- Claim C3: the client balance calculator returns totalWeight, productWeight,
plasticBoxes and woodBoxes as the signed sums (+1 for 'in', -1 otherwise) of
the respective fields over the client's rows, a missing box count contributing
0; and the product-scoped balance is the signed sum of productWeight over the
rows whose product matches by case-sensitive exact equality. -/
theorem claim3_balances_are_signed_sums (ledger : List StockMovement) (cid : Nat) (p : String) :
    (getClientStockSummary ledger cid).totalWeight
        = ((ledger.filter (fun m => m.clientId == cid)).map twContrib).sum ∧
    (getClientStockSummary ledger cid).productWeight
        = ((ledger.filter (fun m => m.clientId == cid)).map pwContrib).sum ∧
    (getClientStockSummary ledger cid).plasticBoxes
        = ((ledger.filter (fun m => m.clientId == cid)).map pbContrib).sum ∧
    (getClientStockSummary ledger cid).woodBoxes
        = ((ledger.filter (fun m => m.clientId == cid)).map wbContrib).sum ∧
    getProductStockForClient ledger cid p
        = ((ledger.filter (fun m => m.clientId == cid && m.product == p)).map pwContrib).sum :=
  ⟨getClientStockSummary_totalWeight ledger cid,
   getClientStockSummary_productWeight ledger cid,
   getClientStockSummary_plasticBoxes ledger cid,
   getClientStockSummary_woodBoxes ledger cid,
   getProductStockForClient_eq_sum ledger cid p⟩

/-- Claim C5: the computed net balance for a client and product is the signed
sum of productWeight values in insertion order, and it is invariant under
every permutation of the rows. -/
theorem claim5_net_balance_perm_invariant (l1 l2 : List StockMovement) (cid : Nat) (p : String)
    (hperm : l1.Perm l2) :
    getProductStockForClient l1 cid p
        = ((l1.filter (fun m => m.clientId == cid && m.product == p)).map pwContrib).sum ∧
    getProductStockForClient l1 cid p = getProductStockForClient l2 cid p := by
  refine ⟨getProductStockForClient_eq_sum l1 cid p, ?_⟩
  rw [getProductStockForClient_eq_sum, getProductStockForClient_eq_sum]
  exact List.Perm.sum_eq ((hperm.filter _).map _)

/-- Witness for claim C5 at a concrete two-row ledger and its transposition. -/
theorem claim5_witness :
    getProductStockForClient [mvA, mvB] 1 "pomme"
      = getProductStockForClient [mvB, mvA] 1 "pomme" :=
  (claim5_net_balance_perm_invariant [mvA, mvB] [mvB, mvA] 1 "pomme"
    (List.Perm.swap mvB mvA [])).2

/-! Inversion lemmas for the POST /api/movements handler. -/

theorem postMovement_ok_eq {ledger : List StockMovement} {i : Nat} {r : MovementRequest}
    {m : StockMovement} (h : postMovement ledger i r = Except.ok m) :
    m = insertedMovement i r ∧ movementFieldsPresent r = true ∧
      0 ≤ derivedProductWeight r := by
  unfold postMovement at h
  split_ifs at h with h1 h2 h3 h4 h5 h6 <;>
    first
      | exact Except.noConfusion h
      | exact ⟨(Except.ok.inj h).symm, h1, not_lt.1 h2⟩

theorem postMovement_ok_out {ledger : List StockMovement} {i : Nat} {r : MovementRequest}
    {m : StockMovement} (hout : r.type.getD "" = "out")
    (h : postMovement ledger i r = Except.ok m) :
    derivedProductWeight r
        ≤ getProductStockForClient ledger (r.clientId.getD 0) (r.product.getD "") ∧
    orZero r.plasticBoxCount
        ≤ (getClientStockSummary ledger (r.clientId.getD 0)).plasticBoxes ∧
    orZero r.woodBoxCount
        ≤ (getClientStockSummary ledger (r.clientId.getD 0)).woodBoxes := by
  unfold postMovement at h
  split_ifs at h with h1 h2 h3 h4 h5 <;>
    first
      | exact Except.noConfusion h
      | exact ⟨not_lt.1 h3, not_lt.1 h4, not_lt.1 h5⟩

/-- Claim C1: for every movement request of type 'in' or 'out', a stored row's
productWeight is the derived value totalWeight - plasticBoxCount*plasticBoxWeight
- woodBoxCount*woodBoxWeight (missing box fields counting 0); a strictly
negative derived value is always rejected with a 400 validation error (no row
stored), the specific error being the negative-net-weight message whenever the
required fields are present. -/
theorem claim1_derived_product_weight (ledger : List StockMovement) (i : Nat)
    (r : MovementRequest) (htype : r.type = some "in" ∨ r.type = some "out") :
    (∀ m, postMovement ledger i r = Except.ok m → m.productWeight = derivedProductWeight r) ∧
    (derivedProductWeight r < 0 → (postMovement ledger i r).isOk = false) ∧
    (movementFieldsPresent r = true → derivedProductWeight r < 0 →
      postMovement ledger i r = Except.error MovementError.negativeProductWeight) := by
  refine ⟨?_, ?_, ?_⟩
  · intro m h
    rw [(postMovement_ok_eq h).1]
    rfl
  · intro hneg
    unfold postMovement
    split_ifs with h1 h2 h3 h4 h5 h6 <;>
      first
        | rfl
        | exact absurd hneg h2
  · intro h1 hneg
    unfold postMovement
    rw [if_pos h1, if_pos hneg]

/-- Witness for claim C1: the negative-derived-weight request is rejected with
the negative-net-weight error. -/
theorem claim1_witness :
    postMovement [] 1 negRequest = Except.error MovementError.negativeProductWeight :=
  (claim1_derived_product_weight [] 1 negRequest (Or.inl rfl)).2.2
    (by simp [movementFieldsPresent, negRequest, truthyNat, truthyStr, truthyQ])
    (by norm_num [derivedProductWeight, negRequest, orZero])

/-- Claim C2: an 'out' request (with required fields and nonnegative derived
weight) succeeds exactly when the derived productWeight is at most the
available product stock and each requested box count is at most the client's
box balance — equality is allowed; strict excess is rejected with the error
carrying the available and requested amounts, product stock being checked
first, then plastic boxes, then wood boxes. -/
theorem claim2_out_only_strict_excess_rejected (ledger : List StockMovement) (i : Nat)
    (r : MovementRequest) (hout : r.type = some "out")
    (hp : movementFieldsPresent r = true) (hnn : 0 ≤ derivedProductWeight r) :
    ((postMovement ledger i r).isOk = true ↔
      (derivedProductWeight r
          ≤ getProductStockForClient ledger (r.clientId.getD 0) (r.product.getD "") ∧
       orZero r.plasticBoxCount
          ≤ (getClientStockSummary ledger (r.clientId.getD 0)).plasticBoxes ∧
       orZero r.woodBoxCount
          ≤ (getClientStockSummary ledger (r.clientId.getD 0)).woodBoxes)) ∧
    (getProductStockForClient ledger (r.clientId.getD 0) (r.product.getD "")
        < derivedProductWeight r →
      postMovement ledger i r = Except.error (MovementError.insufficientProduct
        (getProductStockForClient ledger (r.clientId.getD 0) (r.product.getD ""))
        (derivedProductWeight r))) ∧
    (derivedProductWeight r
        ≤ getProductStockForClient ledger (r.clientId.getD 0) (r.product.getD "") →
     (getClientStockSummary ledger (r.clientId.getD 0)).plasticBoxes
        < orZero r.plasticBoxCount →
      postMovement ledger i r = Except.error (MovementError.insufficientPlastic
        ((getClientStockSummary ledger (r.clientId.getD 0)).plasticBoxes)
        (orZero r.plasticBoxCount))) ∧
    (derivedProductWeight r
        ≤ getProductStockForClient ledger (r.clientId.getD 0) (r.product.getD "") →
     orZero r.plasticBoxCount
        ≤ (getClientStockSummary ledger (r.clientId.getD 0)).plasticBoxes →
     (getClientStockSummary ledger (r.clientId.getD 0)).woodBoxes
        < orZero r.woodBoxCount →
      postMovement ledger i r = Except.error (MovementError.insufficientWood
        ((getClientStockSummary ledger (r.clientId.getD 0)).woodBoxes)
        (orZero r.woodBoxCount))) := by
  have hout' : r.type.getD "" = "out" := by rw [hout]; rfl
  refine ⟨?_, ?_, ?_, ?_⟩
  · unfold postMovement
    rw [if_pos hp, if_neg (not_lt.2 hnn), if_pos hout']
    split_ifs with h4 h5 h6
    · exact ⟨fun h => Bool.noConfusion h,
        fun hc => absurd h4 (not_lt.2 hc.1)⟩
    · exact ⟨fun h => Bool.noConfusion h,
        fun hc => absurd h5 (not_lt.2 hc.2.1)⟩
    · exact ⟨fun h => Bool.noConfusion h,
        fun hc => absurd h6 (not_lt.2 hc.2.2)⟩
    · exact ⟨fun _ => ⟨not_lt.1 h4, not_lt.1 h5, not_lt.1 h6⟩, fun _ => rfl⟩
  · intro h4
    unfold postMovement
    rw [if_pos hp, if_neg (not_lt.2 hnn), if_pos hout', if_pos h4]
  · intro hle h5
    unfold postMovement
    rw [if_pos hp, if_neg (not_lt.2 hnn), if_pos hout', if_neg (not_lt.2 hle), if_pos h5]
  · intro hle hple h6
    unfold postMovement
    rw [if_pos hp, if_neg (not_lt.2 hnn), if_pos hout', if_neg (not_lt.2 hle),
      if_neg (not_lt.2 hple), if_pos h6]

/-- Witness for claim C2: after a deposit leaving 90 kg of stock, a withdrawal
whose derived productWeight is exactly 90 is accepted. -/
theorem claim2_witness : (postMovement [inRow] 2 outRequestEq).isOk = true :=
  (claim2_out_only_strict_excess_rejected [inRow] 2 outRequestEq rfl
    (by simp [movementFieldsPresent, outRequestEq, truthyNat, truthyStr, truthyQ])
    (by norm_num [derivedProductWeight, outRequestEq, orZero])).1.mpr
    ⟨by norm_num [derivedProductWeight, outRequestEq, orZero, getProductStockForClient,
        inRow, insertedMovement, inRequest, productStep, multiplier, List.filter],
     by norm_num [outRequestEq, orZero, getClientStockSummary, summaryStep, truthyQ,
        inRow, insertedMovement, inRequest, derivedProductWeight, multiplier, List.filter],
     by norm_num [outRequestEq, orZero, getClientStockSummary, summaryStep, truthyQ,
        inRow, insertedMovement, inRequest, derivedProductWeight, multiplier, List.filter]⟩

/-- Claim C6: a request of type 'in' performs no available-stock check — its
outcome is independent of the ledger and is never an insufficiency error —
while the negative-derived-weight rejection still applies. -/
theorem claim6_in_skips_stock_checks (l1 l2 : List StockMovement) (i : Nat)
    (r : MovementRequest) (hin : r.type = some "in") :
    postMovement l1 i r = postMovement l2 i r ∧
    (∀ e, postMovement l1 i r = Except.error e →
      e = MovementError.missingFields ∨ e = MovementError.negativeProductWeight) ∧
    (movementFieldsPresent r = true → derivedProductWeight r < 0 →
      postMovement l1 i r = Except.error MovementError.negativeProductWeight) := by
  have hns : ¬ (r.type.getD "" = "out") := by rw [hin]; decide
  refine ⟨?_, ?_, ?_⟩
  · unfold postMovement
    by_cases h1 : movementFieldsPresent r = true
    · rw [if_pos h1, if_pos h1]
      by_cases h2 : derivedProductWeight r < 0
      · rw [if_pos h2, if_pos h2]
      · rw [if_neg h2, if_neg h2, if_neg hns, if_neg hns]
    · rw [if_neg h1, if_neg h1]
  · intro e he
    unfold postMovement at he
    split_ifs at he with h1 h2 h3 <;>
      first
        | exact Or.inl (Except.error.inj he).symm
        | exact Or.inr (Except.error.inj he).symm
        | exact absurd h3 hns
        | exact absurd he (by simp)
  · intro h1 hneg
    unfold postMovement
    rw [if_pos h1, if_pos hneg]

/-- Witness for claim C6: the outcome of a deposit request is the same on a
nonempty ledger and on the empty ledger. -/
theorem claim6_witness : postMovement [mvA] 1 inRequest = postMovement [] 1 inRequest :=
  (claim6_in_skips_stock_checks [mvA] [] 1 inRequest rfl).1

/-- Claim C10 (implicit): a POST /api/movements request whose clientId,
totalWeight or recordedByUserId equals 0 is rejected as missing required
fields (the JavaScript truthiness test treats 0 as absent), so a
zero-gross-weight movement can never be created. -/
theorem claim10_zero_field_treated_missing (ledger : List StockMovement) (i : Nat)
    (r : MovementRequest)
    (h : r.clientId = some 0 ∨ r.totalWeight = some 0 ∨ r.recordedByUserId = some 0) :
    postMovement ledger i r = Except.error MovementError.missingFields := by
  have hzq : truthyQ (some (0 : ℚ)) = false := by simp [truthyQ]
  have hzn : truthyNat (some 0) = false := by simp [truthyNat]
  have hp : ¬ (movementFieldsPresent r = true) := by
    rcases h with h | h | h <;> simp [movementFieldsPresent, h, hzq, hzn]
  unfold postMovement
  rw [if_neg hp]

/-- Witness for claim C10: a complete request with totalWeight 0 is rejected
as missing required fields. -/
theorem claim10_witness :
    postMovement [] 1 zeroWeightRequest = Except.error MovementError.missingFields :=
  claim10_zero_field_treated_missing [] 1 zeroWeightRequest (Or.inr (Or.inl rfl))

/-! Append and singleton lemmas for the balances, and facts about the stored
row, used for the running-balance invariant. -/

theorem getProductStockForClient_append (l1 l2 : List StockMovement) (cid : Nat) (p : String) :
    getProductStockForClient (l1 ++ l2) cid p
      = getProductStockForClient l1 cid p + getProductStockForClient l2 cid p := by
  simp [getProductStockForClient_eq_sum, List.filter_append]

theorem getClientStockSummary_plasticBoxes_append (l1 l2 : List StockMovement) (cid : Nat) :
    (getClientStockSummary (l1 ++ l2) cid).plasticBoxes
      = (getClientStockSummary l1 cid).plasticBoxes
          + (getClientStockSummary l2 cid).plasticBoxes := by
  simp [getClientStockSummary_plasticBoxes, List.filter_append]

theorem getClientStockSummary_woodBoxes_append (l1 l2 : List StockMovement) (cid : Nat) :
    (getClientStockSummary (l1 ++ l2) cid).woodBoxes
      = (getClientStockSummary l1 cid).woodBoxes
          + (getClientStockSummary l2 cid).woodBoxes := by
  simp [getClientStockSummary_woodBoxes, List.filter_append]

theorem getProductStockForClient_singleton (m : StockMovement) (cid : Nat) (p : String) :
    getProductStockForClient [m] cid p
      = if m.clientId == cid && m.product == p then pwContrib m else 0 := by
  by_cases h : (m.clientId == cid && m.product == p) = true <;>
    simp [getProductStockForClient, List.filter_cons, productStep, pwContrib, h]

theorem getClientStockSummary_plasticBoxes_singleton (m : StockMovement) (cid : Nat) :
    (getClientStockSummary [m] cid).plasticBoxes
      = if m.clientId == cid then pbContrib m else 0 := by
  by_cases h : (m.clientId == cid) = true <;>
    simp [getClientStockSummary_plasticBoxes, List.filter_cons, h]

theorem getClientStockSummary_woodBoxes_singleton (m : StockMovement) (cid : Nat) :
    (getClientStockSummary [m] cid).woodBoxes
      = if m.clientId == cid then wbContrib m else 0 := by
  by_cases h : (m.clientId == cid) = true <;>
    simp [getClientStockSummary_woodBoxes, List.filter_cons, h]

theorem insertedMovement_pbCount (i : Nat) (r : MovementRequest) :
    (insertedMovement i r).plasticBoxCount.getD 0
      = if 0 < orZero r.plasticBoxCount then orZero r.plasticBoxCount else 0 := by
  by_cases h : 0 < orZero r.plasticBoxCount <;> simp [insertedMovement, h]

theorem insertedMovement_wbCount (i : Nat) (r : MovementRequest) :
    (insertedMovement i r).woodBoxCount.getD 0
      = if 0 < orZero r.woodBoxCount then orZero r.woodBoxCount else 0 := by
  by_cases h : 0 < orZero r.woodBoxCount <;> simp [insertedMovement, h]

theorem insertedMovement_productWeight (i : Nat) (r : MovementRequest) :
    (insertedMovement i r).productWeight = derivedProductWeight r := rfl

/-- Claim C4 (amended): along every sequence of accepted movement creations
whose type is the string 'in' or 'out', starting from the empty ledger, every
(client, product) product-weight balance is nonnegative and every client's
plastic and wood box balances are nonnegative. (As stated over all accepted
requests the claim fails, because the handler accepts any truthy type string
and only type 'out' triggers the availability checks, while every type other
than 'in' is counted with sign -1 by the balance calculators.) -/
theorem claim4_amended_balances_nonneg (l : List StockMovement) (h : ReachesInOut l)
    (cid : Nat) (p : String) :
    0 ≤ getProductStockForClient l cid p ∧
    0 ≤ (getClientStockSummary l cid).plasticBoxes ∧
    0 ≤ (getClientStockSummary l cid).woodBoxes := by
  induction h with
  | nil =>
      refine ⟨?_, ?_, ?_⟩ <;> simp [getProductStockForClient, getClientStockSummary]
  | @step l i r m hre hty hok ih =>
      obtain ⟨heq, hfields, hnn⟩ := postMovement_ok_eq hok
      subst heq
      rcases hty with hin | hout
      · -- a deposit only adds nonnegative amounts
        have hmul : multiplier (insertedMovement i r).type = 1 := by
          simp [insertedMovement, multiplier, hin]
        refine ⟨?_, ?_, ?_⟩
        · rw [getProductStockForClient_append, getProductStockForClient_singleton]
          by_cases hm : ((insertedMovement i r).clientId == cid
              && (insertedMovement i r).product == p) = true
          · rw [if_pos hm]
            have hpw : pwContrib (insertedMovement i r) = derivedProductWeight r := by
              unfold pwContrib
              rw [insertedMovement_productWeight, hmul, mul_one]
            rw [hpw]
            exact add_nonneg ih.1 hnn
          · rw [if_neg hm, add_zero]
            exact ih.1
        · rw [getClientStockSummary_plasticBoxes_append,
            getClientStockSummary_plasticBoxes_singleton]
          by_cases hm : ((insertedMovement i r).clientId == cid) = true
          · rw [if_pos hm]
            refine add_nonneg ih.2.1 ?_
            unfold pbContrib
            rw [hmul, mul_one, insertedMovement_pbCount]
            by_cases hpos : 0 < orZero r.plasticBoxCount
            · rw [if_pos hpos]; exact le_of_lt hpos
            · rw [if_neg hpos]
          · rw [if_neg hm, add_zero]
            exact ih.2.1
        · rw [getClientStockSummary_woodBoxes_append,
            getClientStockSummary_woodBoxes_singleton]
          by_cases hm : ((insertedMovement i r).clientId == cid) = true
          · rw [if_pos hm]
            refine add_nonneg ih.2.2 ?_
            unfold wbContrib
            rw [hmul, mul_one, insertedMovement_wbCount]
            by_cases hpos : 0 < orZero r.woodBoxCount
            · rw [if_pos hpos]; exact le_of_lt hpos
            · rw [if_neg hpos]
          · rw [if_neg hm, add_zero]
            exact ih.2.2
      · -- a withdrawal subtracts at most the available balance
        have hmul : multiplier (insertedMovement i r).type = -1 := by
          simp [insertedMovement, multiplier, hout]
        have hchk := postMovement_ok_out (show r.type.getD "" = "out" by rw [hout]; rfl) hok
        refine ⟨?_, ?_, ?_⟩
        · rw [getProductStockForClient_append, getProductStockForClient_singleton]
          by_cases hm : ((insertedMovement i r).clientId == cid
              && (insertedMovement i r).product == p) = true
          · rw [if_pos hm]
            have hm' : r.clientId.getD 0 = cid ∧ r.product.getD "" = p := by
              simpa [insertedMovement] using hm
            have h1 := hchk.1
            rw [hm'.1, hm'.2] at h1
            have hpw : pwContrib (insertedMovement i r) = -(derivedProductWeight r) := by
              unfold pwContrib
              rw [insertedMovement_productWeight, hmul, mul_neg_one]
            rw [hpw]
            linarith
          · rw [if_neg hm, add_zero]
            exact ih.1
        · rw [getClientStockSummary_plasticBoxes_append,
            getClientStockSummary_plasticBoxes_singleton]
          by_cases hm : ((insertedMovement i r).clientId == cid) = true
          · rw [if_pos hm]
            have hcid : r.clientId.getD 0 = cid := by simpa [insertedMovement] using hm
            have h2 := hchk.2.1
            rw [hcid] at h2
            have hpb : pbContrib (insertedMovement i r)
                = -((insertedMovement i r).plasticBoxCount.getD 0) := by
              unfold pbContrib
              rw [hmul, mul_neg_one]
            rw [hpb, insertedMovement_pbCount]
            by_cases hpos : 0 < orZero r.plasticBoxCount
            · rw [if_pos hpos]; linarith
            · rw [if_neg hpos, neg_zero, add_zero]; exact ih.2.1
          · rw [if_neg hm, add_zero]
            exact ih.2.1
        · rw [getClientStockSummary_woodBoxes_append,
            getClientStockSummary_woodBoxes_singleton]
          by_cases hm : ((insertedMovement i r).clientId == cid) = true
          · rw [if_pos hm]
            have hcid : r.clientId.getD 0 = cid := by simpa [insertedMovement] using hm
            have h3 := hchk.2.2
            rw [hcid] at h3
            have hwb : wbContrib (insertedMovement i r)
                = -((insertedMovement i r).woodBoxCount.getD 0) := by
              unfold wbContrib
              rw [hmul, mul_neg_one]
            rw [hwb, insertedMovement_wbCount]
            by_cases hpos : 0 < orZero r.woodBoxCount
            · rw [if_pos hpos]; linarith
            · rw [if_neg hpos, neg_zero, add_zero]; exact ih.2.2
          · rw [if_neg hm, add_zero]
            exact ih.2.2

/-- Counterexample to claim C4 as stated: the movement creation with type
'sortie' is accepted by the API (the required-field check only demands a
truthy type string, and the availability checks run only for type 'out'),
yet it leaves the (client 1, 'pomme') product balance at -10. -/
theorem claim4_counterexample :
    Reaches [sortieRow] ∧ getProductStockForClient [sortieRow] 1 "pomme" < 0 := by
  constructor
  · have hp : movementFieldsPresent sortieRequest = true := by
      simp [movementFieldsPresent, sortieRequest, truthyNat, truthyStr, truthyQ]
    have hd : ¬ derivedProductWeight sortieRequest < 0 := by
      norm_num [derivedProductWeight, sortieRequest, orZero]
    have ht : ¬ (sortieRequest.type.getD "" = "out") := by simp [sortieRequest]
    have hpost : postMovement [] 1 sortieRequest = Except.ok sortieRow := by
      unfold postMovement
      rw [if_pos hp, if_neg hd, if_neg ht]
      rfl
    exact Reaches.step Reaches.nil hpost
  · norm_num [getProductStockForClient, sortieRow, insertedMovement, sortieRequest,
      productStep, multiplier, derivedProductWeight, orZero, storedComment, List.filter,
      (show ¬ ("sortie" = "in") by decide)]

/-- Witness for the amended claim C4 at a concrete one-deposit run. -/
theorem claim4_witness : 0 ≤ getProductStockForClient [inRow] 1 "pomme" :=
  (claim4_amended_balances_nonneg [inRow]
    (ReachesInOut.step ReachesInOut.nil (Or.inl rfl) (by
      have hp : movementFieldsPresent inRequest = true := by
        simp [movementFieldsPresent, inRequest, truthyNat, truthyStr, truthyQ]
      have hd : ¬ derivedProductWeight inRequest < 0 := by
        norm_num [derivedProductWeight, inRequest, orZero]
      have ht : ¬ (inRequest.type.getD "" = "out") := by simp [inRequest]
      unfold postMovement
      rw [if_pos hp, if_neg hd, if_neg ht]
      rfl))
    1 "pomme").1

/-- Counterexample to claim C7 as stated: a PATCH body containing both a
farmerComment string and isCommentRead=true leaves isCommentRead true, not
false — of the duplicate isCommentRead assignments the rightmost (the
explicit boolean) takes effect. -/
theorem claim7_counterexample :
    patchMovement [mvA] 1 bothPatchBody = Except.ok [mvABothPatched] ∧
    mvABothPatched.isCommentRead = true := by
  exact ⟨rfl, rfl⟩

/-- Claim C7 (amended): a PATCH whose body carries a farmerComment string and
no isCommentRead boolean stores that string and resets isCommentRead to false
even if it was true (when the body also carries an isCommentRead boolean, that
boolean prevails); a patch carrying only isCommentRead=true sets it to true,
is idempotent, and leaves farmerComment unchanged; the handler applies this
row transformation to the matching row. -/
theorem claim7_amended_patch_semantics (ledger : List StockMovement) (mid : Nat)
    (b : MovementPatchBody) (s : String) (m : StockMovement)
    (hb : ¬ (b.farmerComment = none ∧ b.isCommentRead = none))
    (hex : (ledger.any (fun x => x.id == mid)) = true) :
    applyMovementPatch { farmerComment := some s, isCommentRead := none } m
        = { m with farmerComment := some s, isCommentRead := false } ∧
    applyMovementPatch { farmerComment := none, isCommentRead := some true } m
        = { m with isCommentRead := true } ∧
    applyMovementPatch { farmerComment := none, isCommentRead := some true }
        (applyMovementPatch { farmerComment := none, isCommentRead := some true } m)
        = applyMovementPatch { farmerComment := none, isCommentRead := some true } m ∧
    (applyMovementPatch { farmerComment := none, isCommentRead := some true } m).farmerComment
        = m.farmerComment ∧
    patchMovement ledger mid b
        = Except.ok (ledger.map (fun x => if x.id == mid then applyMovementPatch b x else x)) := by
  refine ⟨rfl, rfl, rfl, rfl, ?_⟩
  unfold patchMovement
  rw [if_neg hb, if_pos hex]

/-- Witness for the amended claim C7: marking a movement's comment read. -/
theorem claim7_witness :
    patchMovement [mvA] 1 { farmerComment := none, isCommentRead := some true }
      = Except.ok [{ mvA with isCommentRead := true }] := by
  rw [(claim7_amended_patch_semantics [mvA] 1
      { farmerComment := none, isCommentRead := some true } "x" mvA
      (by simp) (by decide)).2.2.2.2]
  rfl

/-- Closed form of `applyUserPut`: the sequential SET list amounts to an
independent per-field update. -/
theorem applyUserPut_eq (hash : String → String) (b : UserPutBody) (u : User) :
    applyUserPut hash b u =
      { id := u.id,
        username := if truthyStr b.username then b.username.getD "" else u.username,
        name := if truthyStr b.name then b.name.getD "" else u.name,
        role := if truthyStr b.role then b.role.getD "" else u.role,
        status := if truthyStr b.status then b.status.getD "" else u.status,
        password := if truthyStr b.password then hash (b.password.getD "") else u.password,
        clientId := if b.role = some "Agriculteur" then b.clientId else none } := by
  simp only [applyUserPut]
  split_ifs <;> rfl

/-- Counterexample to claim C8 as stated: a PUT on a Farmer-role user whose
body carries only a name overwrites the absent clientId with NULL (the
clientId assignment is always pushed and the body's role is undefined), and a
PUT whose name is present but empty leaves the name unchanged (truthiness, not
presence, drives the update). -/
theorem claim8_counterexample :
    farmerUser.clientId = some 5 ∧
    putUser (fun s => s) [farmerUser] 3 renameOnlyBody
      = Except.ok [{ farmerUser with name := "Robert", clientId := none }] ∧
    putUser (fun s => s) [farmerUser] 3 emptyNameBody
      = Except.ok [{ farmerUser with clientId := none }] := by
  refine ⟨rfl, ?_, ?_⟩ <;> rfl

/-- Claim C8 (amended): PUT /api/users/:id is a partial update for name,
username, role, status and password only — each is updated exactly when
present with a truthy (non-empty) value, the password to its hash — while
clientId is always overwritten: to the body's clientId when the body's role
equals 'Agriculteur' and to NULL otherwise; the id is never changed, and the
handler applies this transformation to the matching row. -/
theorem claim8_amended_put_semantics (hash : String → String) (b : UserPutBody) (u : User)
    (users : List User) (uid : Nat)
    (hex : (users.any (fun x => x.id == uid)) = true) :
    (applyUserPut hash b u).name = (if truthyStr b.name then b.name.getD "" else u.name) ∧
    (applyUserPut hash b u).username
        = (if truthyStr b.username then b.username.getD "" else u.username) ∧
    (applyUserPut hash b u).role = (if truthyStr b.role then b.role.getD "" else u.role) ∧
    (applyUserPut hash b u).status
        = (if truthyStr b.status then b.status.getD "" else u.status) ∧
    (applyUserPut hash b u).password
        = (if truthyStr b.password then hash (b.password.getD "") else u.password) ∧
    (applyUserPut hash b u).clientId
        = (if b.role = some "Agriculteur" then b.clientId else none) ∧
    (applyUserPut hash b u).id = u.id ∧
    putUser hash users uid b
        = Except.ok (users.map (fun x => if x.id == uid then applyUserPut hash b x else x)) := by
  refine ⟨?_, ?_, ?_, ?_, ?_, ?_, ?_, ?_⟩
  · rw [applyUserPut_eq]
  · rw [applyUserPut_eq]
  · rw [applyUserPut_eq]
  · rw [applyUserPut_eq]
  · rw [applyUserPut_eq]
  · rw [applyUserPut_eq]
  · rw [applyUserPut_eq]
  · unfold putUser
    rw [if_pos hex]

/-- Witness for the amended claim C8 at a concrete user and body. -/
theorem claim8_witness :
    putUser (fun s => s) [farmerUser] 3 renameOnlyBody
      = Except.ok [applyUserPut (fun s => s) renameOnlyBody farmerUser] := by
  rw [(claim8_amended_put_semantics (fun s => s) renameOnlyBody farmerUser [farmerUser] 3
      (by decide)).2.2.2.2.2.2.2]
  rfl

/-- Claim C9: DELETE /api/users/:id on an existing Admin-role target is
rejected with 403 — the handler consults no caller — and the row stays in the
store; on an existing non-Admin target the row is removed and 204 returned. -/
theorem claim9_delete_admin_forbidden (users : List User) (uid : Nat) (u : User)
    (hfind : users.find? (fun x => x.id == uid) = some u) :
    (u.role = "Admin" →
      deleteUser users uid = (DeleteResult.forbiddenAdmin, users) ∧
      u ∈ (deleteUser users uid).2) ∧
    (u.role ≠ "Admin" →
      deleteUser users uid
        = (DeleteResult.deleted, users.filter (fun x => ! (x.id == uid)))) := by
  have hmem : u ∈ users := List.mem_of_find?_eq_some hfind
  have hstep : deleteUser users uid
      = (if u.role = "Admin" then (DeleteResult.forbiddenAdmin, users)
         else (DeleteResult.deleted, users.filter (fun x => ! (x.id == uid)))) := by
    unfold deleteUser
    rw [hfind]
  constructor
  · intro hadmin
    have hdel : deleteUser users uid = (DeleteResult.forbiddenAdmin, users) := by
      rw [hstep, if_pos hadmin]
    exact ⟨hdel, by rw [hdel]; exact hmem⟩
  · intro hnadmin
    rw [hstep, if_neg hnadmin]

/-- Witness for claim C9: deleting the Admin user is refused and the store is
unchanged. -/
theorem claim9_witness :
    deleteUser [adminUser] 1 = (DeleteResult.forbiddenAdmin, [adminUser]) :=
  ((claim9_delete_admin_forbidden [adminUser] 1 adminUser (by decide)).1 rfl).1

end Warehouse
